import Mathlib

/-!
Verification development for the Markdown-to-PDF converter's rendering core
(`server/pdfGenerator.ts` together with the style defaults of
`drizzle/schema.ts`).  The rendering pipeline — HTML escaping, the recursive
tree-to-markup renderer `astToHtml`, the document shell builder
`generateStyledHtml`, and the browser-driving `generatePdfFromMarkdown` —
is embedded shallowly below and its specified properties are proved.
-/

namespace MdToPdf

/-- Scalar value of a JSON-backed style field: either a string or an
integer, as stored in the `headingStyles` / `codeBlockStyles` /
`tableStyles` JSON columns.  JavaScript truthiness on such a value:
`0` and `""` are falsy, everything else is truthy. -/
inductive JVal where
  | str (s : String)
  | int (n : Int)
deriving DecidableEq, Repr

/-- Truthiness of a style-field value, as JavaScript evaluates it in
`x || default`: the number 0 and the empty string are falsy. -/
def JVal.truthy : JVal → Bool
  | .str s => s != ""
  | .int n => n != 0

/-- Template-literal rendering of a style-field value (`${x}`). -/
def JVal.render : JVal → String
  | .str s => s
  | .int n => toString n

/-- Embedding of the JavaScript expression `x || d` as it is applied to a
possibly-absent style field `x` interpolated into a template literal:
an absent field (`undefined`) and a present falsy field (0, "") both
yield the default `d`; any truthy field renders itself. -/
def jsOr (v : Option JVal) (d : String) : String :=
  match v with
  | some jv => if jv.truthy then jv.render else d
  | none => d

/-- Style block for one heading level (`headingStyles["h1"] = {fontSize,
fontWeight, marginTop, marginBottom}`); each field may be absent. -/
structure HeadingStyle where
  fontSize : Option JVal := none
  fontWeight : Option JVal := none
  marginTop : Option JVal := none
  marginBottom : Option JVal := none
deriving DecidableEq, Repr

/-- Style block for code (`codeBlockStyles`); each field may be absent. -/
structure CodeBlockStyles where
  fontFamily : Option JVal := none
  fontSize : Option JVal := none
  backgroundColor : Option JVal := none
  padding : Option JVal := none
  borderRadius : Option JVal := none
  lineHeight : Option JVal := none
deriving DecidableEq, Repr

/-- Style block for tables (`tableStyles`); each field may be absent. -/
structure TableStyles where
  borderColor : Option JVal := none
  headerBackgroundColor : Option JVal := none
  cellPadding : Option JVal := none
  fontSize : Option JVal := none
deriving DecidableEq, Repr

/-- The `FormattingRule` record (row of the `formattingRules` table) as
consumed by the renderer.  `lineHeight` is a decimal column and hence a
string in the inferred row type; margins and font size are integer
columns; `headingStyles` is a JSON object keyed by "h1".."h6", embedded
as an association list; `preventOrphanHeadings` is an integer-encoded
boolean tested by truthiness. -/
structure FormattingRule where
  fontFamily : String
  fontSize : Int
  lineHeight : String
  headingStyles : List (String × HeadingStyle)
  pageSize : String
  marginTop : Int
  marginBottom : Int
  marginLeft : Int
  marginRight : Int
  headerText : Option String
  footerText : Option String
  codeBlockStyles : CodeBlockStyles
  tableStyles : TableStyles
  pageBreakBeforeHeadings : String
  preventOrphanHeadings : Int
  keepCodeBlocksTogether : Int
deriving DecidableEq, Repr

/-- Translation of the replacement map of `escapeHtml`
(`{"&": "&amp;", "<": "&lt;", ">": "&gt;", '"': "&quot;", "'": "&#039;"}`),
applied characterwise: the five mapped characters become their entities,
every other character is kept verbatim. -/
def escapeChar (c : Char) : String :=
  if c = Char.ofNat 38 then "&amp;"
  else if c = Char.ofNat 60 then "&lt;"
  else if c = Char.ofNat 62 then "&gt;"
  else if c = Char.ofNat 34 then "&quot;"
  else if c = Char.ofNat 39 then "&#039;"
  else String.singleton c

/-- Characterwise escaping of a character list, the list-level engine of
`escapeHtml` (the regex `/[&<>"']/g` replaces each occurrence
independently, so the whole replacement is a characterwise map). -/
def escChars : List Char → List Char
  | [] => []
  | c :: rest => (escapeChar c).data ++ escChars rest

/-- Embedding of `escapeHtml(text)`: `text.replace(/[&<>"']/g, m => map[m])`. -/
def escapeHtml (text : String) : String :=
  String.mk (escChars text.data)

/-- Structural document tree produced by the Markdown parser, as the
renderer consumes it.  Tables carry their rows as a list of rows, each
row a list of cells, each cell a list of child nodes (exactly the
`node.children` / `row.children` / `cell.children` shape the `table`
branch of `astToHtml` walks).  `other` stands for any node type without
a dedicated branch: such a node may or may not carry a `children`
array. -/
inductive MNode where
  | root (children : List MNode)
  | heading (level : Nat) (children : List MNode)
  | paragraph (children : List MNode)
  | text (value : String)
  | emphasis (children : List MNode)
  | strong (children : List MNode)
  | inlineCode (value : String)
  | code (value : String)
  | list (ordered : Bool) (children : List MNode)
  | listItem (children : List MNode)
  | blockquote (children : List MNode)
  | table (rows : List (List (List MNode)))
  | link (url : String) (children : List MNode)
  | image (url : String) (alt : Option String)
  | thematicBreak
  | other (children : Option (List MNode))

mutual

/-- Embedding of `astToHtml(node, rules, depth)`, the recursive
tree-to-markup renderer.  Each branch reproduces the template literal of
the corresponding `node.type` branch of the source; wrapping children in
a synthetic root node and recursing is the same as concatenating the
children's renderings at the same depth, which `astList` does. -/
def astToHtml (rules : FormattingRule) (depth : Nat) : MNode → String
  | .root cs => astList rules depth cs
  | .heading level cs =>
      let headingStyle := (rules.headingStyles.lookup ("h" ++ toString level)).getD {}
      "<h" ++ toString level ++ " style=\"font-size: " ++ jsOr headingStyle.fontSize "16" ++
        "px; font-weight: " ++ jsOr headingStyle.fontWeight "600" ++
        "; margin-top: " ++ jsOr headingStyle.marginTop "12" ++
        "px; margin-bottom: " ++ jsOr headingStyle.marginBottom "6" ++ "px;\">" ++
        astList rules depth cs ++ "</h" ++ toString level ++ ">"
  | .paragraph cs =>
      "<p style=\"margin-bottom: 1em; line-height: " ++ rules.lineHeight ++ ";\">" ++
        astList rules depth cs ++ "</p>"
  | .text v => escapeHtml v
  | .emphasis cs => "<em>" ++ astList rules depth cs ++ "</em>"
  | .strong cs => "<strong>" ++ astList rules depth cs ++ "</strong>"
  | .inlineCode v =>
      "<code style=\"font-family: " ++ jsOr rules.codeBlockStyles.fontFamily "monospace" ++
        "; font-size: " ++ jsOr rules.codeBlockStyles.fontSize "11" ++
        "px; background-color: " ++ jsOr rules.codeBlockStyles.backgroundColor "#f5f5f5" ++
        "; padding: 2px 4px; border-radius: 3px;\">" ++ escapeHtml v ++ "</code>"
  | .code v =>
      "<pre style=\"font-family: " ++ jsOr rules.codeBlockStyles.fontFamily "monospace" ++
        "; font-size: " ++ jsOr rules.codeBlockStyles.fontSize "11" ++
        "px; background-color: " ++ jsOr rules.codeBlockStyles.backgroundColor "#f5f5f5" ++
        "; padding: " ++ jsOr rules.codeBlockStyles.padding "12" ++
        "px; border-radius: " ++ jsOr rules.codeBlockStyles.borderRadius "4" ++
        "px; overflow-x: auto; line-height: " ++ jsOr rules.codeBlockStyles.lineHeight "1.4" ++
        ";\"><code>" ++ escapeHtml v ++ "</code></pre>"
  | .list ordered cs =>
      let tag := if ordered then "ol" else "ul"
      "<" ++ tag ++ " style=\"margin-left: " ++ toString (20 + depth * 20) ++
        "px; margin-bottom: 1em;\">" ++ astList rules (depth + 1) cs ++ "</" ++ tag ++ ">"
  | .listItem cs => "<li>" ++ astList rules depth cs ++ "</li>"
  | .blockquote cs =>
      "<blockquote style=\"border-left: 4px solid #ccc; padding-left: 12px; " ++
        "margin-left: 0; font-style: italic; color: #666;\">" ++
        astList rules depth cs ++ "</blockquote>"
  | .table rows =>
      "<table style=\"border-collapse: collapse; width: 100%; margin-bottom: 1em; " ++
        "border: 1px solid " ++ jsOr rules.tableStyles.borderColor "#ddd" ++ ";\"><tbody>" ++
        rowsToHtml rules depth (decide (1 < rows.length)) 0 rows ++ "</tbody></table>"
  | .link url cs =>
      "<a href=\"" ++ escapeHtml url ++
        "\" style=\"color: #0066cc; text-decoration: underline;\">" ++
        astList rules depth cs ++ "</a>"
  | .image url alt =>
      "<img src=\"" ++ escapeHtml url ++ "\" alt=\"" ++ escapeHtml (alt.getD "") ++
        "\" style=\"max-width: 100%; height: auto; margin: 1em 0;\" />"
  | .thematicBreak =>
      "<hr style=\"border: none; border-top: 1px solid #ccc; margin: 2em 0;\" />"
  | .other cs =>
      match cs with
      | some l => astList rules depth l
      | none => ""

/-- Rendering of a children array: the source wraps the array in a
synthetic root and recurses, which concatenates the children's
fragments in order at the same depth. -/
def astList (rules : FormattingRule) (depth : Nat) : List MNode → String
  | [] => ""
  | c :: cs => astToHtml rules depth c ++ astList rules depth cs

/-- The `node.children?.forEach((row, rowIndex) => ...)` loop of the
`table` branch: `multi` is the precomputed `node.children.length > 1`
and `i` the running `rowIndex`; a row is a header row iff `i = 0` and
`multi`. -/
def rowsToHtml (rules : FormattingRule) (depth : Nat) (multi : Bool) :
    Nat → List (List (List MNode)) → String
  | _, [] => ""
  | i, row :: rest =>
      let isHeader := (i == 0) && multi
      "<tr style=\"background-color: " ++
        (if isHeader then jsOr rules.tableStyles.headerBackgroundColor "#f9f9f9" else "white") ++
        ";\">" ++ cellsToHtml rules depth isHeader row ++ "</tr>" ++
        rowsToHtml rules depth multi (i + 1) rest

/-- The `row.children?.forEach(cell => ...)` loop of the `table` branch:
every cell of a header row uses tag `th`, otherwise `td`; the inline
style of a cell does not depend on the header/data role. -/
def cellsToHtml (rules : FormattingRule) (depth : Nat) (isHeader : Bool) :
    List (List MNode) → String
  | [] => ""
  | cell :: rest =>
      let tag := if isHeader then "th" else "td"
      "<" ++ tag ++ " style=\"border: 1px solid " ++ jsOr rules.tableStyles.borderColor "#ddd" ++
        "; padding: " ++ jsOr rules.tableStyles.cellPadding "8" ++
        "px; font-size: " ++ jsOr rules.tableStyles.fontSize "11" ++ "px;\">" ++
        astList rules depth cell ++ "</" ++ tag ++ ">" ++
        cellsToHtml rules depth isHeader rest

end

/-- The page-size resolution line of `generateStyledHtml`:
`rules.pageSize === "Letter" ? "8.5in 11in" : "210mm 297mm"` (A4 default). -/
def pageSizeResolved (rules : FormattingRule) : String :=
  if rules.pageSize = "Letter" then "8.5in 11in" else "210mm 297mm"

/-- The `size`/`margin` declarations of the `@page` rule, exactly as the
template interpolates them: `size: ${pageSize};` then the four-sided
margin shorthand `margin: ${marginTop} ${marginRight} ${marginBottom}
${marginLeft};` with each margin the rule's integer suffixed `mm`. -/
def atPageGeometry (rules : FormattingRule) : String :=
  "size: " ++ pageSizeResolved rules ++ ";\n      margin: " ++
    toString rules.marginTop ++ "mm " ++ toString rules.marginRight ++ "mm " ++
    toString rules.marginBottom ++ "mm " ++ toString rules.marginLeft ++ "mm;"

/-- The `${rules.headerText ? ... : ""}` interpolation of the `@page`
rule: a `@top-center` content rule carrying the escaped header text when
`headerText` is truthy, the empty string otherwise. -/
def headerChunk (rules : FormattingRule) : String :=
  match rules.headerText with
  | some s => if s != "" then "@top-center \x7b content: \"" ++ escapeHtml s ++ "\"; \x7d" else ""
  | none => ""

/-- The `${rules.footerText ? ... : ""}` interpolation of the `@page`
rule: a `@bottom-center` content rule carrying the escaped footer text
when `footerText` is truthy, the empty string otherwise. -/
def footerChunk (rules : FormattingRule) : String :=
  match rules.footerText with
  | some s => if s != "" then "@bottom-center \x7b content: \"" ++ escapeHtml s ++ "\"; \x7d" else ""
  | none => ""

/-- The `${rules.pageBreakBeforeHeadings === "h1" ? ... : ""}` stylesheet
interpolation. -/
def h1BreakChunk (rules : FormattingRule) : String :=
  if rules.pageBreakBeforeHeadings = "h1" then "h1 \x7b page-break-before: always; \x7d" else ""

/-- The `${rules.pageBreakBeforeHeadings === "h2" ? ... : ""}` stylesheet
interpolation. -/
def h2BreakChunk (rules : FormattingRule) : String :=
  if rules.pageBreakBeforeHeadings = "h2" then "h2 \x7b page-break-before: always; \x7d" else ""

/-- The `${rules.preventOrphanHeadings ? ... : ""}` stylesheet
interpolation (`preventOrphanHeadings` is an integer-encoded boolean,
tested by truthiness). -/
def orphanChunk (rules : FormattingRule) : String :=
  if rules.preventOrphanHeadings != 0 then
    "h1, h2, h3 \x7b page-break-after: avoid; orphans: 3; widows: 3; \x7d"
  else ""

/-- Embedding of `generateStyledHtml(content, rules)`: the full document
template literal, reproduced byte for byte, with the interpolated
expressions factored into the chunk definitions above. -/
def generateStyledHtml (content : String) (rules : FormattingRule) : String :=
  "\n<!DOCTYPE html>\n<html lang=\"en\">\n<head>\n  <meta charset=\"UTF-8\">\n  <meta name=\"viewport\" content=\"width=device-width, initial-scale=1.0\">\n  <title>PDF Document</title>\n  <style>\n    * \x7b\n      margin: 0;\n      padding: 0;\n      box-sizing: border-box;\n    \x7d\n\n    @page \x7b\n      " ++
  atPageGeometry rules ++
  ("\n      " ++ headerChunk rules ++
  ("\n      " ++ footerChunk rules ++
  ("\n    \x7d\n\n    body \x7b\n      font-family: \x27" ++ rules.fontFamily ++
  ("\x27, sans-serif;\n      font-size: " ++ toString rules.fontSize ++
  ("px;\n      line-height: " ++ rules.lineHeight ++
  (";\n      color: #333;\n    \x7d\n\n    h1, h2, h3, h4, h5, h6 \x7b\n      page-break-after: avoid;\n    \x7d\n\n    " ++ h1BreakChunk rules ++
  ("\n    " ++ h2BreakChunk rules ++
  ("\n\n    " ++ orphanChunk rules ++
  ("\n\n    pre \x7b\n      page-break-inside: avoid;\n    \x7d\n\n    table \x7b\n      page-break-inside: avoid;\n    \x7d\n\n    img \x7b\n      page-break-inside: avoid;\n    \x7d\n\n    p \x7b\n      margin-bottom: 1em;\n    \x7d\n\n    ul, ol \x7b\n      margin-left: 20px;\n      margin-bottom: 1em;\n    \x7d\n\n    blockquote \x7b\n      border-left: 4px solid #ccc;\n      padding-left: 12px;\n      margin-left: 0;\n      font-style: italic;\n      color: #666;\n      margin-bottom: 1em;\n    \x7d\n\n    code \x7b\n      font-family: \x27Courier New\x27, monospace;\n      background-color: #f5f5f5;\n      padding: 2px 4px;\n      border-radius: 3px;\n    \x7d\n\n    pre code \x7b\n      padding: 0;\n      background-color: transparent;\n    \x7d\n  </style>\n</head>\n<body>\n  " ++ content ++
  "\n</body>\n</html>\n  ")))))))))

/-- Embedding of `markdownToHtml(markdown, rules)`.  The Markdown parser
(`unified().use(remarkParse).use(remarkGfm)`) is an external library
treated as a black box; it is injected as a function from the source
text to the structural tree.  The body parses, renders the tree at
depth 0, and wraps the fragment in the document shell. -/
def markdownToHtml (parse : String → MNode) (markdown : String)
    (rules : FormattingRule) : String :=
  generateStyledHtml (astToHtml rules 0 (parse markdown)) rules

/-- Ambient state a nondeterministic renderer could read: a clock, a
random seed, and an environment map.  The source renderer reads none of
these. -/
structure World where
  time : Nat
  randomSeed : Nat
  env : List (String × String)
deriving DecidableEq, Repr

/-- The render invocation as performed inside the server process,
carrying the ambient world state that is available to it.  The body of
`markdownToHtml` consults no clock, no randomness and no environment,
so the embedding ignores the world argument. -/
def markdownToHtmlInWorld (_w : World) (parse : String → MNode) (markdown : String)
    (rules : FormattingRule) : String :=
  markdownToHtml parse markdown rules

/-- Outcome environment of one `generatePdfFromMarkdown` call: presence
of `BROWSER_WS_ENDPOINT`, the first existing Chrome executable (if any),
and for each awaited puppeteer step the error that step throws, `none`
meaning the step succeeds.  `releaseErr` is the error thrown by the
`finally` block's `disconnect()`/`close()`. -/
structure PdfEnv where
  wsEndpoint : Option String
  chromePath : Option String
  connectErr : Option String
  launchErr : Option String
  newPageErr : Option String
  setContentErr : Option String
  pdfErr : Option String
  releaseErr : Option String
deriving DecidableEq, Repr

/-- Observable browser-lifecycle events of one call, in order. -/
inductive PdfEvent where
  | connected
  | launched
  | disconnected
  | closed
deriving DecidableEq, Repr

/-- The `try` body of `generatePdfFromMarkdown`: `newPage`, then
`setContent`, then `page.pdf`; the first throwing step aborts the body,
a fully successful body produces the PDF of the assembled HTML
(abstracted as the HTML string itself). -/
def pdfTryBody (env : PdfEnv) (html : String) : Except String String :=
  match env.newPageErr with
  | some e => .error e
  | none =>
    match env.setContentErr with
    | some e => .error e
    | none =>
      match env.pdfErr with
      | some e => .error e
      | none => .ok html

/-- Embedding of `generatePdfFromMarkdown(markdown, rules)` over an
outcome environment: acquisition (connect via WebSocket endpoint when
set, otherwise locate and launch a local Chrome, throwing when none is
found), then the `try` body, then the `finally` block, which always
runs the release matching the acquisition mode (`disconnect` for a
connected browser, `close` for a launched one).  Per JavaScript
semantics, an error thrown inside `finally` replaces the body's
outcome, success or failure alike.  Returns the call's outcome together
with the trace of lifecycle events. -/
def generatePdfFromMarkdown (env : PdfEnv) (parse : String → MNode)
    (markdown : String) (rules : FormattingRule) :
    Except String String × List PdfEvent :=
  let html := markdownToHtml parse markdown rules
  match env.wsEndpoint with
  | some _ =>
    match env.connectErr with
    | some e => (.error e, [])
    | none =>
      let body := pdfTryBody env html
      match env.releaseErr with
      | some e2 => (.error e2, [.connected, .disconnected])
      | none => (body, [.connected, .disconnected])
  | none =>
    match env.chromePath with
    | none =>
      (.error "Chrome not found. Set BROWSER_WS_ENDPOINT or CHROME_PATH environment variable.",
        [])
    | some _ =>
      match env.launchErr with
      | some e => (.error e, [])
      | none =>
        let body := pdfTryBody env html
        match env.releaseErr with
        | some e2 => (.error e2, [.launched, .closed])
        | none => (body, [.launched, .closed])

/-- Substring occurrence: the pattern's character sequence is an infix
of the subject's character sequence. -/
def occursIn (pat s : String) : Prop :=
  List.IsInfix pat.data s.data

/-- Character sequences in which the five HTML-special source characters
occur only as their named entity encodings: such a sequence is a
concatenation of safe characters (none of the five specials) and the
five entities `&amp;` `&lt;` `&gt;` `&quot;` `&#039;`.  This is the
spec's reading of "the rendered HTML never contains an unescaped
literal `&`, `<`, `>`, `\"`, or `'` ... except the named entity
encodings". -/
inductive EscapedForm : List Char → Prop where
  | nil : EscapedForm []
  | safe (c : Char) (rest : List Char) :
      c ≠ Char.ofNat 38 → c ≠ Char.ofNat 60 → c ≠ Char.ofNat 62 →
      c ≠ Char.ofNat 34 → c ≠ Char.ofNat 39 →
      EscapedForm rest → EscapedForm (c :: rest)
  | ampEnt (rest : List Char) : EscapedForm rest → EscapedForm (("&amp;").data ++ rest)
  | ltEnt (rest : List Char) : EscapedForm rest → EscapedForm (("&lt;").data ++ rest)
  | gtEnt (rest : List Char) : EscapedForm rest → EscapedForm (("&gt;").data ++ rest)
  | quotEnt (rest : List Char) : EscapedForm rest → EscapedForm (("&quot;").data ++ rest)
  | aposEnt (rest : List Char) : EscapedForm rest → EscapedForm (("&#039;").data ++ rest)

/-- Escaped output is a concatenation of safe characters and the five
entities. -/
theorem escapedForm_escChars (l : List Char) : EscapedForm (escChars l) := by
  induction l with
  | nil => exact .nil
  | cons c rest ih =>
    show EscapedForm ((escapeChar c).data ++ escChars rest)
    by_cases h38 : c = Char.ofNat 38
    · have h : (escapeChar c).data = ("&amp;").data := by rw [h38]; decide
      rw [h]; exact .ampEnt _ ih
    · by_cases h60 : c = Char.ofNat 60
      · have h : (escapeChar c).data = ("&lt;").data := by rw [h60]; decide
        rw [h]; exact .ltEnt _ ih
      · by_cases h62 : c = Char.ofNat 62
        · have h : (escapeChar c).data = ("&gt;").data := by rw [h62]; decide
          rw [h]; exact .gtEnt _ ih
        · by_cases h34 : c = Char.ofNat 34
          · have h : (escapeChar c).data = ("&quot;").data := by rw [h34]; decide
            rw [h]; exact .quotEnt _ ih
          · by_cases h39 : c = Char.ofNat 39
            · have h : (escapeChar c).data = ("&#039;").data := by rw [h39]; decide
              rw [h]; exact .aposEnt _ ih
            · have h : (escapeChar c).data = [c] := by
                rw [escapeChar, if_neg h38, if_neg h60, if_neg h62, if_neg h34, if_neg h39]
                rfl
              rw [h]
              exact .safe c _ h38 h60 h62 h34 h39 ih

/-- No raw `<`, `>`, `"` or `'` character survives escaping at all (the
entity texts contain none of them). -/
theorem noRaw_escChars (l : List Char) (c : Char) (hc : c ∈ escChars l) :
    c ≠ Char.ofNat 60 ∧ c ≠ Char.ofNat 62 ∧ c ≠ Char.ofNat 34 ∧ c ≠ Char.ofNat 39 := by
  induction l with
  | nil => simp [escChars] at hc
  | cons d rest ih =>
    rw [escChars] at hc
    rcases List.mem_append.mp hc with h | h
    · by_cases h38 : d = Char.ofNat 38
      · rw [h38] at h
        have hd : (escapeChar (Char.ofNat 38)).data = ("&amp;").data := by decide
        rw [hd] at h
        fin_cases h <;> exact ⟨by decide, by decide, by decide, by decide⟩
      · by_cases h60 : d = Char.ofNat 60
        · rw [h60] at h
          have hd : (escapeChar (Char.ofNat 60)).data = ("&lt;").data := by decide
          rw [hd] at h
          fin_cases h <;> exact ⟨by decide, by decide, by decide, by decide⟩
        · by_cases h62 : d = Char.ofNat 62
          · rw [h62] at h
            have hd : (escapeChar (Char.ofNat 62)).data = ("&gt;").data := by decide
            rw [hd] at h
            fin_cases h <;> exact ⟨by decide, by decide, by decide, by decide⟩
          · by_cases h34 : d = Char.ofNat 34
            · rw [h34] at h
              have hd : (escapeChar (Char.ofNat 34)).data = ("&quot;").data := by decide
              rw [hd] at h
              fin_cases h <;> exact ⟨by decide, by decide, by decide, by decide⟩
            · by_cases h39 : d = Char.ofNat 39
              · rw [h39] at h
                have hd : (escapeChar (Char.ofNat 39)).data = ("&#039;").data := by decide
                rw [hd] at h
                fin_cases h <;> exact ⟨by decide, by decide, by decide, by decide⟩
              · have hd : (escapeChar d).data = [d] := by
                  rw [escapeChar, if_neg h38, if_neg h60, if_neg h62, if_neg h34, if_neg h39]
                  rfl
                rw [hd] at h
                rcases List.mem_singleton.mp h with rfl
                exact ⟨h60, h62, h34, h39⟩
    · exact ih h

/-- Concrete formatting rule used by witness instantiations: the mock
rule of the repository's test suite (`DEFAULT_HEADING_STYLES`,
`DEFAULT_CODE_BLOCK_STYLES`, `DEFAULT_TABLE_STYLES` of
`drizzle/schema.ts`, A4, 20mm margins, Inter 12 / 1.50). -/
def sampleRules : FormattingRule where
  fontFamily := "Inter"
  fontSize := 12
  lineHeight := "1.50"
  headingStyles :=
    [("h1", { fontSize := some (.int 32), fontWeight := some (.int 900),
              marginTop := some (.int 24), marginBottom := some (.int 12) }),
     ("h2", { fontSize := some (.int 24), fontWeight := some (.int 800),
              marginTop := some (.int 20), marginBottom := some (.int 10) }),
     ("h3", { fontSize := some (.int 20), fontWeight := some (.int 700),
              marginTop := some (.int 16), marginBottom := some (.int 8) }),
     ("h4", { fontSize := some (.int 16), fontWeight := some (.int 600),
              marginTop := some (.int 12), marginBottom := some (.int 6) }),
     ("h5", { fontSize := some (.int 14), fontWeight := some (.int 600),
              marginTop := some (.int 10), marginBottom := some (.int 4) }),
     ("h6", { fontSize := some (.int 12), fontWeight := some (.int 600),
              marginTop := some (.int 8), marginBottom := some (.int 4) })]
  pageSize := "A4"
  marginTop := 20
  marginBottom := 20
  marginLeft := 20
  marginRight := 20
  headerText := none
  footerText := none
  codeBlockStyles :=
    { fontFamily := some (.str "monospace"), fontSize := some (.int 11),
      backgroundColor := some (.str "#f5f5f5"), padding := some (.int 12),
      borderRadius := some (.int 4), lineHeight := some (.str "1.4") }
  tableStyles :=
    { borderColor := some (.str "#ddd"), headerBackgroundColor := some (.str "#f9f9f9"),
      cellPadding := some (.int 8), fontSize := some (.int 11) }
  pageBreakBeforeHeadings := "h1"
  preventOrphanHeadings := 1
  keepCodeBlocksTogether := 1

/-- C1: every text node, inline-code value, fenced-code value, link url,
image url/alt and header/footer text reaching the output goes through
exactly the five-character escape map (`&`→`&amp;`, `<`→`&lt;`,
`>`→`&gt;`, `"`→`&quot;`, `'`→`&#039;`) and nothing more, so escaped
output is a concatenation of safe characters and the five entities (in
particular it has no raw `<`, `>`, `"`, `'`), and no further filtering —
e.g. of `javascript:` URLs — is applied to escaped URLs. -/
theorem c1_escape_exactness :
    (∀ c : Char, c ≠ Char.ofNat 38 → c ≠ Char.ofNat 60 → c ≠ Char.ofNat 62 →
      c ≠ Char.ofNat 34 → c ≠ Char.ofNat 39 → escapeChar c = String.singleton c)
    ∧ (escapeChar (Char.ofNat 38) = "&amp;" ∧ escapeChar (Char.ofNat 60) = "&lt;" ∧
       escapeChar (Char.ofNat 62) = "&gt;" ∧ escapeChar (Char.ofNat 34) = "&quot;" ∧
       escapeChar (Char.ofNat 39) = "&#039;")
    ∧ (∀ s : String, EscapedForm (escapeHtml s).data)
    ∧ (∀ s : String, ∀ c ∈ (escapeHtml s).data,
        c ≠ Char.ofNat 60 ∧ c ≠ Char.ofNat 62 ∧ c ≠ Char.ofNat 34 ∧ c ≠ Char.ofNat 39)
    ∧ (∀ rules depth v, astToHtml rules depth (.text v) = escapeHtml v)
    ∧ (∀ rules depth v, astToHtml rules depth (.inlineCode v) =
        "<code style=\"font-family: " ++ jsOr rules.codeBlockStyles.fontFamily "monospace" ++
        "; font-size: " ++ jsOr rules.codeBlockStyles.fontSize "11" ++
        "px; background-color: " ++ jsOr rules.codeBlockStyles.backgroundColor "#f5f5f5" ++
        "; padding: 2px 4px; border-radius: 3px;\">" ++ escapeHtml v ++ "</code>")
    ∧ (∀ rules depth v, astToHtml rules depth (.code v) =
        "<pre style=\"font-family: " ++ jsOr rules.codeBlockStyles.fontFamily "monospace" ++
        "; font-size: " ++ jsOr rules.codeBlockStyles.fontSize "11" ++
        "px; background-color: " ++ jsOr rules.codeBlockStyles.backgroundColor "#f5f5f5" ++
        "; padding: " ++ jsOr rules.codeBlockStyles.padding "12" ++
        "px; border-radius: " ++ jsOr rules.codeBlockStyles.borderRadius "4" ++
        "px; overflow-x: auto; line-height: " ++ jsOr rules.codeBlockStyles.lineHeight "1.4" ++
        ";\"><code>" ++ escapeHtml v ++ "</code></pre>")
    ∧ (∀ rules depth url cs, astToHtml rules depth (.link url cs) =
        "<a href=\"" ++ escapeHtml url ++
        "\" style=\"color: #0066cc; text-decoration: underline;\">" ++
        astList rules depth cs ++ "</a>")
    ∧ (∀ rules depth url alt, astToHtml rules depth (.image url alt) =
        "<img src=\"" ++ escapeHtml url ++ "\" alt=\"" ++ escapeHtml (alt.getD "") ++
        "\" style=\"max-width: 100%; height: auto; margin: 1em 0;\" />")
    ∧ (∀ rules s, rules.headerText = some s → s ≠ "" →
        headerChunk rules = "@top-center \x7b content: \"" ++ escapeHtml s ++ "\"; \x7d")
    ∧ (∀ rules s, rules.footerText = some s → s ≠ "" →
        footerChunk rules = "@bottom-center \x7b content: \"" ++ escapeHtml s ++ "\"; \x7d")
    ∧ (∀ rules depth cs, astToHtml rules depth (.link "javascript:alert(1)" cs) =
        "<a href=\"" ++ "javascript:alert(1)" ++
        "\" style=\"color: #0066cc; text-decoration: underline;\">" ++
        astList rules depth cs ++ "</a>") := by
  refine ⟨?_, by decide, ?_, ?_, fun _ _ _ => rfl, fun _ _ _ => rfl, fun _ _ _ => rfl,
    fun _ _ _ _ => rfl, fun _ _ _ _ => rfl, ?_, ?_, ?_⟩
  · intro c h38 h60 h62 h34 h39
    rw [escapeChar, if_neg h38, if_neg h60, if_neg h62, if_neg h34, if_neg h39]
  · intro s
    exact escapedForm_escChars s.data
  · intro s c hc
    exact noRaw_escChars s.data c hc
  · intro rules s h hne
    simp only [headerChunk, h]
    rw [if_pos (by simpa using hne)]
  · intro rules s h hne
    simp only [footerChunk, h]
    rw [if_pos (by simpa using hne)]
  · intro rules depth cs
    have h : escapeHtml "javascript:alert(1)" = "javascript:alert(1)" := by decide
    show "<a href=\"" ++ escapeHtml "javascript:alert(1)" ++
      "\" style=\"color: #0066cc; text-decoration: underline;\">" ++
      astList rules depth cs ++ "</a>" = _
    rw [h]

/-- Witness for C1: the hypothesis-bearing conjuncts instantiated — a
safe character (`x`) passes through unescaped, and a concrete truthy
header/footer text is emitted through `escapeHtml`. -/
theorem c1_escape_exactness_witness :
    escapeChar (Char.ofNat 120) = String.singleton (Char.ofNat 120) ∧
    headerChunk { sampleRules with headerText := some "T&C" } =
      "@top-center \x7b content: \"" ++ escapeHtml "T&C" ++ "\"; \x7d" ∧
    footerChunk { sampleRules with footerText := some "p. 1" } =
      "@bottom-center \x7b content: \"" ++ escapeHtml "p. 1" ++ "\"; \x7d" :=
  ⟨c1_escape_exactness.1 (Char.ofNat 120) (by decide) (by decide) (by decide) (by decide)
      (by decide),
   c1_escape_exactness.2.2.2.2.2.2.2.2.2.1 { sampleRules with headerText := some "T&C" }
      "T&C" rfl (by decide),
   c1_escape_exactness.2.2.2.2.2.2.2.2.2.2.1 { sampleRules with footerText := some "p. 1" }
      "p. 1" rfl (by decide)⟩

/-- Two-level defaulted heading style resolution, stated the way the
spec describes it: when the key `h{level}` is entirely absent from the
heading-style mapping all four fields take the fixed defaults
(fontSize 16, fontWeight 600, marginTop 12, marginBottom 6); when it is
present, each field individually falls back to that same fixed default
through the defaulting operator.  Returns the four rendered values
(font-size, font-weight, margin-top, margin-bottom). -/
def resolveHeadingStyle (m : List (String × HeadingStyle)) (level : Nat) :
    String × String × String × String :=
  match m.lookup ("h" ++ toString level) with
  | none => ("16", "600", "12", "6")
  | some hs => (jsOr hs.fontSize "16", jsOr hs.fontWeight "600",
                jsOr hs.marginTop "12", jsOr hs.marginBottom "6")

/-- C2: for every heading of level 1..6, the renderer resolves the
style by the two-level defaulted lookup of key `h{level}` and emits
`<h{level}>` carrying inline `font-size`, `font-weight`, `margin-top`,
`margin-bottom` (px) around the rendered children. -/
theorem c2_heading_two_level_defaulting :
    ∀ (rules : FormattingRule) (depth level : Nat) (cs : List MNode),
      1 ≤ level → level ≤ 6 →
      astToHtml rules depth (.heading level cs) =
        "<h" ++ toString level ++ " style=\"font-size: " ++
        (resolveHeadingStyle rules.headingStyles level).1 ++
        "px; font-weight: " ++ (resolveHeadingStyle rules.headingStyles level).2.1 ++
        "; margin-top: " ++ (resolveHeadingStyle rules.headingStyles level).2.2.1 ++
        "px; margin-bottom: " ++ (resolveHeadingStyle rules.headingStyles level).2.2.2 ++
        "px;\">" ++ astList rules depth cs ++ "</h" ++ toString level ++ ">" := by
  intro rules depth level cs _ _
  cases h : rules.headingStyles.lookup ("h" ++ toString level) with
  | none => simp only [astToHtml, resolveHeadingStyle, h, Option.getD, jsOr]
  | some hs => simp only [astToHtml, resolveHeadingStyle, h, Option.getD]

/-- Witness for C2: the theorem applied at level 2 of the sample rule
(whose h2 style supplies all four fields) and at level 3 of a rule with
an empty mapping (whole-level fallback). -/
theorem c2_heading_two_level_defaulting_witness :
    astToHtml sampleRules 0 (.heading 2 []) =
      "<h" ++ toString 2 ++ " style=\"font-size: " ++
      (resolveHeadingStyle sampleRules.headingStyles 2).1 ++
      "px; font-weight: " ++ (resolveHeadingStyle sampleRules.headingStyles 2).2.1 ++
      "; margin-top: " ++ (resolveHeadingStyle sampleRules.headingStyles 2).2.2.1 ++
      "px; margin-bottom: " ++ (resolveHeadingStyle sampleRules.headingStyles 2).2.2.2 ++
      "px;\">" ++ astList sampleRules 0 [] ++ "</h" ++ toString 2 ++ ">" :=
  c2_heading_two_level_defaulting sampleRules 0 2 [] (by decide) (by decide)

/-- C4: a list node emits `<ol>` when ordered else `<ul>`, with inline
`margin-left: (20 + depth*20)px; margin-bottom: 1em`, rendering its
children at `depth + 1`; a list item passes depth through unchanged; one
extra nesting level adds exactly 20px of left margin; and the document
root renders at depth 0. -/
theorem c4_list_nesting_indent :
    (∀ (rules : FormattingRule) (depth : Nat) (ordered : Bool) (cs : List MNode),
      astToHtml rules depth (.list ordered cs) =
        "<" ++ (if ordered then "ol" else "ul") ++ " style=\"margin-left: " ++
        toString (20 + depth * 20) ++ "px; margin-bottom: 1em;\">" ++
        astList rules (depth + 1) cs ++ "</" ++ (if ordered then "ol" else "ul") ++ ">")
    ∧ (∀ (rules : FormattingRule) (depth : Nat) (cs : List MNode),
        astToHtml rules depth (.listItem cs) = "<li>" ++ astList rules depth cs ++ "</li>")
    ∧ (∀ depth : Nat, 20 + (depth + 1) * 20 = (20 + depth * 20) + 20)
    ∧ (∀ parse markdown rules, markdownToHtml parse markdown rules =
        generateStyledHtml (astToHtml rules 0 (parse markdown)) rules) :=
  ⟨fun _ _ _ _ => rfl, fun _ _ _ => rfl, fun depth => by ring, fun _ _ _ => rfl⟩

/-- Ordered concatenation of the rendered fragments of a list, used to
state rendering equalities without committing to a fold direction. -/
def concatMapStr {α : Type} (f : α → String) : List α → String
  | [] => ""
  | a :: l => f a ++ concatMapStr f l

/-- Tag of a table cell as the spec states it: `th` exactly when the
cell lies in row index 0 of a table with more than one row, `td`
otherwise. -/
def specCellTag (rowCount i : Nat) : String :=
  if i = 0 ∧ 1 < rowCount then "th" else "td"

/-- One table cell as emitted by the renderer: the given tag around the
rendered cell children, with the same border / padding / font-size
inline style regardless of the tag. -/
def specCellHtml (rules : FormattingRule) (depth : Nat) (tag : String)
    (cell : List MNode) : String :=
  "<" ++ tag ++ " style=\"border: 1px solid " ++ jsOr rules.tableStyles.borderColor "#ddd" ++
    "; padding: " ++ jsOr rules.tableStyles.cellPadding "8" ++
    "px; font-size: " ++ jsOr rules.tableStyles.fontSize "11" ++ "px;\">" ++
    astList rules depth cell ++ "</" ++ tag ++ ">"

/-- One table row as emitted by the renderer: header rows (index 0 of a
multi-row table) carry the configured header background color, all
other rows white; the cells use `specCellTag`. -/
def specRowHtml (rules : FormattingRule) (depth rowCount i : Nat)
    (row : List (List MNode)) : String :=
  "<tr style=\"background-color: " ++
    (if i = 0 ∧ 1 < rowCount then jsOr rules.tableStyles.headerBackgroundColor "#f9f9f9"
     else "white") ++
    ";\">" ++ concatMapStr (specCellHtml rules depth (specCellTag rowCount i)) row ++ "</tr>"

/-- The cell loop of the renderer agrees with the per-cell template. -/
theorem cellsToHtml_eq (rules : FormattingRule) (depth : Nat) (hdr : Bool)
    (row : List (List MNode)) :
    cellsToHtml rules depth hdr row =
      concatMapStr (specCellHtml rules depth (if hdr then "th" else "td")) row := by
  induction row with
  | nil => rfl
  | cons cell rest ih =>
    simp only [cellsToHtml, concatMapStr, specCellHtml, ih]

/-- The row loop of the renderer agrees with the per-row template, with
the row index tracked by enumeration. -/
theorem rowsToHtml_eq (rules : FormattingRule) (depth n : Nat) :
    ∀ (i : Nat) (rest : List (List (List MNode))),
      rowsToHtml rules depth (decide (1 < n)) i rest =
        concatMapStr (fun p => specRowHtml rules depth n p.1 p.2) (rest.enumFrom i) := by
  intro i rest
  induction rest generalizing i with
  | nil => rfl
  | cons row rest ih =>
    simp only [rowsToHtml, List.enumFrom, concatMapStr, specRowHtml, ih i.succ]
    rw [cellsToHtml_eq]
    by_cases h : i = 0 ∧ 1 < n
    · have hb : ((i == 0) && decide (1 < n)) = true := by
        simp [h.1, h.2]
      rw [hb, specCellTag, if_pos h]
      simp [h.1, h.2]
    · have hb : ((i == 0) && decide (1 < n)) = false := by
        rcases not_and_or.mp h with h1 | h2
        · simp [h1]
        · simp [h2]
      rw [hb, specCellTag, if_neg h]
      simp [h]

/-- C3: a table renders as `<table><tbody>` around its enumerated rows;
a cell is a `<th>` on a header-background row exactly when it lies in
row index 0 and the table has more than one row, every other cell —
including every cell of a single-row table — is a `<td>` on a white
row; and header and data cells share the same border/padding/font-size
inline style. -/
theorem c3_table_header_heuristic :
    ∀ (rules : FormattingRule) (depth : Nat) (rows : List (List (List MNode))),
      (astToHtml rules depth (.table rows) =
        "<table style=\"border-collapse: collapse; width: 100%; margin-bottom: 1em; " ++
        "border: 1px solid " ++ jsOr rules.tableStyles.borderColor "#ddd" ++ ";\"><tbody>" ++
        concatMapStr (fun p => specRowHtml rules depth rows.length p.1 p.2) rows.enum ++
        "</tbody></table>")
      ∧ (∀ i, specCellTag rows.length i = "th" ↔ (i = 0 ∧ 1 < rows.length))
      ∧ (∀ r, rows = [r] → ∀ i, specCellTag rows.length i = "td") := by
  intro rules depth rows
  refine ⟨?_, ?_, ?_⟩
  · simp only [astToHtml]
    rw [rowsToHtml_eq rules depth rows.length 0 rows]
    rfl
  · intro i
    by_cases h : i = 0 ∧ 1 < rows.length
    · simp [specCellTag, h]
    · simp only [specCellTag, if_neg h]
      simp [h]
  · intro r hr i
    subst hr
    simp [specCellTag]

/-- C8: configuration leniency — an unknown page size resolves to the
A4 dimension string, a node of unknown kind renders as the bare
concatenation of its children (empty when childless), and a heading
level absent from the heading-style mapping renders with the four fixed
defaults instead of failing. -/
theorem c8_lenient_defaults :
    (∀ rules : FormattingRule, rules.pageSize ≠ "Letter" →
      pageSizeResolved rules = "210mm 297mm")
    ∧ (∀ (rules : FormattingRule) (depth : Nat) (cs : List MNode),
        astToHtml rules depth (.other (some cs)) = astList rules depth cs)
    ∧ (∀ (rules : FormattingRule) (depth : Nat),
        astToHtml rules depth (.other none) = "")
    ∧ (∀ (rules : FormattingRule) (depth level : Nat) (cs : List MNode),
        rules.headingStyles.lookup ("h" ++ toString level) = none →
        astToHtml rules depth (.heading level cs) =
          "<h" ++ toString level ++ " style=\"font-size: " ++ "16" ++
          "px; font-weight: " ++ "600" ++ "; margin-top: " ++ "12" ++
          "px; margin-bottom: " ++ "6" ++ "px;\">" ++
          astList rules depth cs ++ "</h" ++ toString level ++ ">") := by
  refine ⟨?_, fun _ _ _ => rfl, fun _ _ => rfl, ?_⟩
  · intro rules h
    rw [pageSizeResolved, if_neg h]
  · intro rules depth level cs h
    simp only [astToHtml, h, Option.getD, jsOr]

/-- Witness for C8: a concrete non-Letter page size resolves to A4, and
a concrete heading level missing from the mapping gets the default
style block. -/
theorem c8_lenient_defaults_witness :
    pageSizeResolved { sampleRules with pageSize := "B5" } = "210mm 297mm" ∧
    astToHtml { sampleRules with headingStyles := [] } 0 (.heading 3 []) =
      "<h" ++ toString 3 ++ " style=\"font-size: " ++ "16" ++
      "px; font-weight: " ++ "600" ++ "; margin-top: " ++ "12" ++
      "px; margin-bottom: " ++ "6" ++ "px;\">" ++
      astList { sampleRules with headingStyles := [] } 0 [] ++ "</h" ++ toString 3 ++ ">" :=
  ⟨c8_lenient_defaults.1 { sampleRules with pageSize := "B5" } (by decide),
   c8_lenient_defaults.2.2.2 { sampleRules with headingStyles := [] } 0 3 [] rfl⟩

/-- Witness for C3: a single-row table — every cell tag is `td`. -/
theorem c3_table_header_heuristic_witness :
    specCellTag ([[[MNode.text "a"]]] : List (List (List MNode))).length 0 = "td" :=
  (c3_table_header_heuristic sampleRules 0 [[[MNode.text "a"]]]).2.2 [[MNode.text "a"]] rfl 0

/-- A list is an infix of itself followed by anything. -/
theorem headIsInfixOfAppend {α : Type} (l₁ l₂ : List α) : List.IsInfix l₁ (l₁ ++ l₂) :=
  ⟨[], l₂, by simp⟩

/-- Infixes are stable under prepending. -/
theorem isInfixOfPrepend {α : Type} (l₁ l₂ l : List α) (h : List.IsInfix l₁ l₂) :
    List.IsInfix l₁ (l ++ l₂) := by
  rcases h with ⟨s, t, rfl⟩
  exact ⟨l ++ s, t, by simp⟩

set_option maxRecDepth 4000 in
/-- C5: the shell's `@page` rule resolves `size` to `8.5in 11in` exactly
when the rule's page size is `Letter` and to `210mm 297mm` (A4) for any
other value, and places the four margins, each suffixed `mm`, into the
top/right/bottom/left positions of the `margin` shorthand; the combined
`size`/`margin` declaration occurs in the built document. -/
theorem c5_page_geometry :
    ∀ (content : String) (rules : FormattingRule),
      (pageSizeResolved rules = "8.5in 11in" ↔ rules.pageSize = "Letter")
      ∧ (rules.pageSize ≠ "Letter" → pageSizeResolved rules = "210mm 297mm")
      ∧ atPageGeometry rules =
          "size: " ++ pageSizeResolved rules ++ ";\n      margin: " ++
          toString rules.marginTop ++ "mm " ++ toString rules.marginRight ++ "mm " ++
          toString rules.marginBottom ++ "mm " ++ toString rules.marginLeft ++ "mm;"
      ∧ occursIn (atPageGeometry rules) (generateStyledHtml content rules) := by
  intro content rules
  refine ⟨?_, ?_, rfl, ?_⟩
  · by_cases h : rules.pageSize = "Letter"
    · simp [pageSizeResolved, h]
    · rw [pageSizeResolved, if_neg h]
      exact iff_of_false (by decide) h
  · intro h
    rw [pageSizeResolved, if_neg h]
  · show List.IsInfix (atPageGeometry rules).data (generateStyledHtml content rules).data
    simp only [generateStyledHtml, String.data_append, List.append_assoc]
    apply isInfixOfPrepend
    exact headIsInfixOfAppend _ _

/-- Witness for C5: the theorem applied to the sample rule (non-Letter)
and to its Letter variant. -/
theorem c5_page_geometry_witness :
    pageSizeResolved sampleRules = "210mm 297mm" ∧
    (pageSizeResolved { sampleRules with pageSize := "Letter" } = "8.5in 11in" ↔
      ({ sampleRules with pageSize := "Letter" } : FormattingRule).pageSize = "Letter") :=
  ⟨(c5_page_geometry "" sampleRules).2.1 (by decide),
   (c5_page_geometry "" { sampleRules with pageSize := "Letter" }).1⟩

set_option maxRecDepth 4000 in
/-- C6: the stylesheet's conditional chunks — the `h1`/`h2`
page-break-before rules appear exactly when `pageBreakBeforeHeadings`
selects that level, the orphan/widow block for `h1`–`h3` appears
exactly when `preventOrphanHeadings` is truthy, each chunk is empty
when not requested, and each chunk occurs in the built document. -/
theorem c6_conditional_stylesheet_rules :
    ∀ (content : String) (rules : FormattingRule),
      (h1BreakChunk rules = "h1 \x7b page-break-before: always; \x7d" ↔
        rules.pageBreakBeforeHeadings = "h1")
      ∧ (rules.pageBreakBeforeHeadings ≠ "h1" → h1BreakChunk rules = "")
      ∧ (h2BreakChunk rules = "h2 \x7b page-break-before: always; \x7d" ↔
          rules.pageBreakBeforeHeadings = "h2")
      ∧ (rules.pageBreakBeforeHeadings ≠ "h2" → h2BreakChunk rules = "")
      ∧ (orphanChunk rules =
            "h1, h2, h3 \x7b page-break-after: avoid; orphans: 3; widows: 3; \x7d" ↔
          rules.preventOrphanHeadings ≠ 0)
      ∧ (rules.preventOrphanHeadings = 0 → orphanChunk rules = "")
      ∧ occursIn (h1BreakChunk rules) (generateStyledHtml content rules)
      ∧ occursIn (h2BreakChunk rules) (generateStyledHtml content rules)
      ∧ occursIn (orphanChunk rules) (generateStyledHtml content rules) := by
  intro content rules
  refine ⟨?_, ?_, ?_, ?_, ?_, ?_, ?_, ?_, ?_⟩
  · by_cases h : rules.pageBreakBeforeHeadings = "h1"
    · simp [h1BreakChunk, h]
    · rw [h1BreakChunk, if_neg h]
      exact iff_of_false (by decide) h
  · intro h
    rw [h1BreakChunk, if_neg h]
  · by_cases h : rules.pageBreakBeforeHeadings = "h2"
    · simp [h2BreakChunk, h]
    · rw [h2BreakChunk, if_neg h]
      exact iff_of_false (by decide) h
  · intro h
    rw [h2BreakChunk, if_neg h]
  · by_cases h : rules.preventOrphanHeadings = 0
    · rw [orphanChunk, if_neg (by simpa using h)]
      exact iff_of_false (by decide) (by simpa using h)
    · rw [orphanChunk, if_pos (by simpa using h)]
      exact iff_of_true rfl h
  · intro h
    rw [orphanChunk, if_neg (by simpa using h)]
  · show List.IsInfix (h1BreakChunk rules).data (generateStyledHtml content rules).data
    simp only [generateStyledHtml, String.data_append, List.append_assoc]
    repeat
      first
      | exact headIsInfixOfAppend _ _
      | apply isInfixOfPrepend
  · show List.IsInfix (h2BreakChunk rules).data (generateStyledHtml content rules).data
    simp only [generateStyledHtml, String.data_append, List.append_assoc]
    repeat
      first
      | exact headIsInfixOfAppend _ _
      | apply isInfixOfPrepend
  · show List.IsInfix (orphanChunk rules).data (generateStyledHtml content rules).data
    simp only [generateStyledHtml, String.data_append, List.append_assoc]
    repeat
      first
      | exact headIsInfixOfAppend _ _
      | apply isInfixOfPrepend

/-- Witness for C6: the sample rule requests h1 page breaks and orphan
control, so its h2 chunk is empty and the other chunks are the iff's
positive sides. -/
theorem c6_conditional_stylesheet_rules_witness :
    h2BreakChunk sampleRules = "" ∧
    (h1BreakChunk sampleRules = "h1 \x7b page-break-before: always; \x7d" ↔
      sampleRules.pageBreakBeforeHeadings = "h1") :=
  ⟨(c6_conditional_stylesheet_rules "" sampleRules).2.2.2.1 (by decide),
   (c6_conditional_stylesheet_rules "" sampleRules).1⟩

/-- C7: the rendering core is deterministic — its output does not
depend on the ambient world (clock, randomness, environment), and is a
function of the parsed tree and the rule alone, so two invocations on
the same (Markdown, Rule) pair yield byte-identical HTML. -/
theorem c7_render_deterministic :
    (∀ (w₁ w₂ : World) (parse : String → MNode) (markdown : String) (rules : FormattingRule),
      markdownToHtmlInWorld w₁ parse markdown rules =
        markdownToHtmlInWorld w₂ parse markdown rules)
    ∧ (∀ (parse₁ parse₂ : String → MNode) (md₁ md₂ : String) (rules : FormattingRule),
        parse₁ md₁ = parse₂ md₂ →
        markdownToHtml parse₁ md₁ rules = markdownToHtml parse₂ md₂ rules) := by
  constructor
  · intro w₁ w₂ parse markdown rules
    rfl
  · intro p₁ p₂ m₁ m₂ rules h
    unfold markdownToHtml
    rw [h]

/-- Witness for C7: two inputs on which a (constant) parser agrees
render identically. -/
theorem c7_render_deterministic_witness :
    markdownToHtml (fun _ => MNode.root []) "a" sampleRules =
      markdownToHtml (fun _ => MNode.root []) "b" sampleRules :=
  c7_render_deterministic.2 (fun _ => MNode.root []) (fun _ => MNode.root []) "a" "b"
    sampleRules rfl

/-- Environment on which the masking behaviour of the `finally` block
is exhibited: a WebSocket-managed browser, a render step that throws,
and a release (`disconnect`) that also throws. -/
def failEnv : PdfEnv where
  wsEndpoint := some "ws://browserless:3000"
  chromePath := none
  connectErr := none
  launchErr := none
  newPageErr := none
  setContentErr := none
  pdfErr := some "render failed"
  releaseErr := some "disconnect failed"

/-- Counterexample to C9 as stated: when the PDF step fails with
"render failed" and the `finally` block's `disconnect()` fails with
"disconnect failed", the call's outcome is the release error — the
original render error is replaced and is no longer observable — even
though release was attempted on this exit path. -/
theorem c9_release_masking_counterexample :
    (generatePdfFromMarkdown failEnv (fun _ => MNode.root []) "# t" sampleRules).1 =
      Except.error "disconnect failed" ∧
    (generatePdfFromMarkdown failEnv (fun _ => MNode.root []) "# t" sampleRules).1 ≠
      Except.error "render failed" ∧
    (generatePdfFromMarkdown failEnv (fun _ => MNode.root []) "# t" sampleRules).2 =
      [PdfEvent.connected, PdfEvent.disconnected] := by
  refine ⟨rfl, ?_, rfl⟩
  have h1 : (generatePdfFromMarkdown failEnv (fun _ => MNode.root []) "# t" sampleRules).1 =
      Except.error "disconnect failed" := rfl
  rw [h1]
  intro h
  injection h with h2
  exact absurd h2 (by decide)

/-- C9 (amended): once the engine is acquired, it is released on every
exit path — disconnected when obtained through a WebSocket endpoint,
fully closed when locally launched — and release is attempted
unconditionally; but a failure during release replaces the original
outcome (success or error), so the original error is not observable
when release fails. -/
theorem c9_release_on_every_path :
    ∀ (env : PdfEnv) (parse : String → MNode) (markdown : String) (rules : FormattingRule),
      (∀ e, env.wsEndpoint = some e → env.connectErr = none →
        (generatePdfFromMarkdown env parse markdown rules).2 =
          [PdfEvent.connected, PdfEvent.disconnected])
      ∧ (env.wsEndpoint = none → ∀ p, env.chromePath = some p → env.launchErr = none →
          (generatePdfFromMarkdown env parse markdown rules).2 =
            [PdfEvent.launched, PdfEvent.closed])
      ∧ (∀ e2, env.releaseErr = some e2 →
          ((∃ e, env.wsEndpoint = some e ∧ env.connectErr = none) ∨
            (env.wsEndpoint = none ∧ (∃ p, env.chromePath = some p) ∧ env.launchErr = none)) →
          (generatePdfFromMarkdown env parse markdown rules).1 = Except.error e2) := by
  intro env parse markdown rules
  refine ⟨?_, ?_, ?_⟩
  · intro e hws hconn
    simp only [generatePdfFromMarkdown, hws, hconn]
    cases hr : env.releaseErr <;> simp [hr]
  · intro hws p hcp hl
    simp only [generatePdfFromMarkdown, hws, hcp, hl]
    cases hr : env.releaseErr <;> simp [hr]
  · intro e2 hrel hac
    rcases hac with ⟨e, hws, hconn⟩ | ⟨hws, ⟨p, hcp⟩, hl⟩
    · simp only [generatePdfFromMarkdown, hws, hconn, hrel]
    · simp only [generatePdfFromMarkdown, hws, hcp, hl, hrel]

/-- Witness for C9 (amended): on the failing environment, the engine is
still disconnected and the outcome is the release error. -/
theorem c9_release_on_every_path_witness :
    (generatePdfFromMarkdown failEnv (fun _ => MNode.root []) "# t" sampleRules).2 =
      [PdfEvent.connected, PdfEvent.disconnected] ∧
    (generatePdfFromMarkdown failEnv (fun _ => MNode.root []) "# t" sampleRules).1 =
      Except.error "disconnect failed" :=
  ⟨(c9_release_on_every_path failEnv (fun _ => MNode.root []) "# t" sampleRules).1
      "ws://browserless:3000" rfl rfl,
   (c9_release_on_every_path failEnv (fun _ => MNode.root []) "# t" sampleRules).2.2
      "disconnect failed" rfl (Or.inl ⟨"ws://browserless:3000", rfl, rfl⟩)⟩

/-- C10: every style default is applied through the truthiness-based
defaulting operator, so a field explicitly set to 0 or to the empty
string is indistinguishable from an absent field — the rendered output
carries the fixed default in all three cases; instantiated for code
padding 0, a heading fontSize 0, and table cellPadding 0. -/
theorem c10_falsy_equals_absent :
    (∀ d : String,
      jsOr (some (JVal.int 0)) d = d ∧ jsOr (some (JVal.str "")) d = d ∧ jsOr none d = d)
    ∧ (∀ (v : Option JVal) (d : String),
        v = some (JVal.int 0) ∨ v = some (JVal.str "") → jsOr v d = jsOr none d)
    ∧ (∀ (rules : FormattingRule) (depth : Nat) (v : String),
        astToHtml
          { rules with codeBlockStyles :=
              { rules.codeBlockStyles with padding := some (JVal.int 0) } } depth (.code v) =
        astToHtml
          { rules with codeBlockStyles :=
              { rules.codeBlockStyles with padding := none } } depth (.code v))
    ∧ (∀ (rules : FormattingRule) (depth : Nat) (s : String),
        astToHtml
          { rules with headingStyles := [("h1", { fontSize := some (JVal.int 0) })] }
          depth (.heading 1 [.text s]) =
        astToHtml
          { rules with headingStyles := [("h1", {})] } depth (.heading 1 [.text s]))
    ∧ (∀ (rules : FormattingRule) (depth : Nat) (s : String),
        astToHtml
          { rules with tableStyles :=
              { rules.tableStyles with cellPadding := some (JVal.int 0) } } depth
          (.table [[[.text s]]]) =
        astToHtml
          { rules with tableStyles :=
              { rules.tableStyles with cellPadding := none } } depth
          (.table [[[.text s]]])) := by
  refine ⟨fun d => ⟨rfl, rfl, rfl⟩, ?_, fun _ _ _ => rfl, fun _ _ _ => rfl, fun _ _ _ => rfl⟩
  intro v d h
  rcases h with h | h <;> rw [h] <;> rfl

/-- Witness for C10: the defaulting operator applied at the concrete
default "12" with a zero field. -/
theorem c10_falsy_equals_absent_witness :
    jsOr (some (JVal.int 0)) "12" = jsOr none "12" :=
  c10_falsy_equals_absent.2.1 (some (JVal.int 0)) "12" (Or.inl rfl)

end MdToPdf
